import Mathlib

/-!
# Verification of the archilex usage-metering and plan-entitlement engine

Shallow embedding of the usage-metering core of the archilex repository:

* `PLAN_LIMITS` / `planLimit`   — src/server/routes.ts, the plan registry
  (`PLAN_LIMITS: Record<string, number | null>` together with the lookup
  `PLAN_LIMITS[user.plan] ?? null` performed by the gate);
* `incrementUsageCount`         — src/server/storage.ts,
  `DatabaseStorage.incrementUsageCount`;
* `checkAndIncrementUsage`      — src/server/routes.ts, the entitlement gate;
* `updateUserPlan`              — src/server/storage.ts,
  `DatabaseStorage.updateUserPlan`;
* `authMeUsage` / `limitReached` — the client-display read path:
  GET /api/auth/me returns the raw user row, and the client pages
  (TeeCalculator.tsx, BlueprintAnalysis.tsx) compute
  `limitReached = user.plan === "free" && (user.usesThisMonth ?? 0) >= 10`;
* a tiny interleaving model of the two database statements inside
  `incrementUsageCount` (a SELECT followed by an UPDATE), used to analyse
  the concurrency claim.

A JavaScript `Date` is observed by this code only through `getMonth()`,
`getFullYear()` and being stored whole into `lastResetDate`; it is embedded
as a month/year pair plus an opaque tick distinguishing instants inside the
same month.
-/

/-- The fields of a JS `Date` that the usage-metering code observes:
`getMonth()`, `getFullYear()`, plus an opaque `tick` so that two distinct
instants of the same month stay distinct when stored into `lastResetDate`. -/
structure Date where
  month : Nat
  year : Nat
  tick : Nat
deriving DecidableEq, Repr

/-- The user row fields touched by the metering engine
(shared schema: `plan`, `usesThisMonth`, `lastResetDate`,
`stripeSubscriptionId`). -/
structure User where
  plan : String
  usesThisMonth : Nat
  lastResetDate : Date
  stripeSubscriptionId : Option String
deriving DecidableEq, Repr

/-- routes.ts: `PLAN_LIMITS: Record<string, number | null>`.
`none` models an absent key (JS `undefined`), `some none` models the value
`null` (unlimited), `some (some q)` a finite quota `q`. -/
def PLAN_LIMITS (plan : String) : Option (Option Nat) :=
  if plan = "free" then some (some 10)
  else if plan = "starter" then some (some 50)
  else if plan = "professional" then some (some 200)
  else if plan = "unlimited" then some none
  else if plan = "pro" then some none
  else none

/-- routes.ts: `const limit = PLAN_LIMITS[user.plan] ?? null;` —
an absent key collapses to `null`, i.e. to the unlimited sentinel. -/
def planLimit (plan : String) : Option Nat :=
  (PLAN_LIMITS plan).getD none

/-- storage.ts / routes.ts:
`now.getMonth() === lastReset.getMonth() && now.getFullYear() === lastReset.getFullYear()`. -/
def sameMonth (now lastReset : Date) : Bool :=
  now.month == lastReset.month && now.year == lastReset.year

/-- storage.ts `incrementUsageCount`: read the row; if the stored
`lastResetDate` is in another calendar month, one UPDATE sets
`usesThisMonth = 1` and `lastResetDate = now`; otherwise one UPDATE sets
`usesThisMonth = usesThisMonth + 1`. -/
def incrementUsageCount (now : Date) (u : User) : User :=
  if sameMonth now u.lastResetDate then
    { u with usesThisMonth := u.usesThisMonth + 1 }
  else
    { u with usesThisMonth := 1, lastResetDate := now }

/-- routes.ts, inside the gate:
`const currentCount = sameMonth ? user.usesThisMonth : 0;` — the effective
current-period usage (the spec's `currentUsage`, staleness rule applied). -/
def currentUsage (now : Date) (u : User) : Nat :=
  if sameMonth now u.lastResetDate then u.usesThisMonth else 0

/-- The gate's `Math.floor(limit * 0.8)`.  For every finite quota of
`PLAN_LIMITS` (10, 50 and 200) the double-precision product `limit * 0.8`
rounds to the exact integer 8, 40 resp. 160, so the JS floor agrees with
this exact rational floor at every reachable argument. -/
def floor80 (limit : Nat) : Nat :=
  limit * 4 / 5

/-- Allow/deny outcome of the gate (`return true` / `return false` after a
403 response in routes.ts). -/
inductive GateResult where
  | allowed
  | denied
deriving DecidableEq, Repr

/-- Observable outcome of one `checkAndIncrementUsage` call: the decision,
the user row after the call, and whether each notification email was
handed to the email collaborator. -/
structure GateOutcome where
  result : GateResult
  user : User
  email100 : Bool
  email80 : Bool
deriving DecidableEq, Repr

/-- routes.ts `checkAndIncrementUsage` (user already fetched):
* `limit === null` → increment and allow, no notification;
* else compute `currentCount` with the staleness rule; if
  `currentCount >= limit` respond 403 (deny) and send the
  `usageLimitReached` email exactly when `currentCount === limit`;
* else increment; send the `usageWarning80` email when
  `limit && updatedUser.usesThisMonth === Math.floor(limit * 0.8)`
  (the `limit &&` guard is falsy only for `limit === 0`). -/
def checkAndIncrementUsage (now : Date) (u : User) : GateOutcome :=
  match planLimit u.plan with
  | none =>
      { result := .allowed
        user := incrementUsageCount now u
        email100 := false
        email80 := false }
  | some limit =>
      let currentCount := currentUsage now u
      if currentCount ≥ limit then
        { result := .denied
          user := u
          email100 := currentCount == limit
          email80 := false }
      else
        let updated := incrementUsageCount now u
        { result := .allowed
          user := updated
          email100 := false
          email80 := (limit != 0) && (updated.usesThisMonth == floor80 limit) }

/-- storage.ts `updateUserPlan`: `updateData = { plan }`, and
`if (stripeSubscriptionId) updateData.stripeSubscriptionId = ...` — the JS
truthiness test skips `undefined` and the empty string. -/
def updateUserPlan (plan : String) (stripeSubscriptionId : Option String)
    (u : User) : User :=
  match stripeSubscriptionId with
  | some s =>
      if s = "" then { u with plan := plan }
      else { u with plan := plan, stripeSubscriptionId := some s }
  | none => { u with plan := plan }

/-- GET /api/auth/me (routes.ts): returns the stored row minus the password;
the usage figure delivered to the client is the raw `usesThisMonth`, with no
staleness adjustment. -/
def authMeUsage (u : User) : Nat :=
  u.usesThisMonth

/-- Client pages TeeCalculator.tsx / BlueprintAnalysis.tsx:
`FREE_LIMIT = 10; limitReached = user?.plan === "free" && (user?.usesThisMonth ?? 0) >= FREE_LIMIT`,
computed from the row served by /api/auth/me. -/
def limitReached (u : User) : Bool :=
  u.plan == "free" && decide (u.usesThisMonth ≥ 10)

/-- Iterate the gate `n` times against one account at a fixed instant,
returning the final row and the list of the `n` outcomes in call order. -/
def iterateGate (now : Date) : Nat → User → User × List GateOutcome
  | 0, u => (u, [])
  | n + 1, u =>
      let o := checkAndIncrementUsage now u
      let (u', os) := iterateGate now n o.user
      (u', o :: os)

/-! ## Interleaving model for the concurrency claim

`incrementUsageCount` issues two separate database statements: a SELECT of
the row (`this.getUser(id)`) and then an UPDATE whose new value
`user.usesThisMonth + 1` is computed in application code from the value
read, with no enclosing transaction.  For a single account inside one
calendar month this is modelled as a shared counter plus one local register
per concurrent invocation; a schedule is a list of read/write events. -/

/-- One event of a concurrent execution of two `incrementUsageCount` calls
(A and B) for the same account in the current month: each call is one
SELECT (read) followed by one UPDATE (write back the read value + 1). -/
inductive IncEvent where
  | readA
  | writeA
  | readB
  | writeB
deriving DecidableEq, Repr

/-- Shared database counter plus the value each in-flight invocation has
read so far (`none` before its SELECT has run). -/
structure IncState where
  store : Nat
  regA : Option Nat
  regB : Option Nat
deriving DecidableEq, Repr

/-- Effect of one event: a read copies the shared counter into the caller's
register; a write stores back (read value + 1), exactly as the UPDATE built
from `user.usesThisMonth + 1` in storage.ts. A write before the
corresponding read has no effect (such schedules are not used). -/
def incStep (s : IncState) : IncEvent → IncState
  | .readA => { s with regA := some s.store }
  | .writeA =>
      match s.regA with
      | some v => { s with store := v + 1 }
      | none => s
  | .readB => { s with regB := some s.store }
  | .writeB =>
      match s.regB with
      | some v => { s with store := v + 1 }
      | none => s

/-- Run a schedule of events from a given state. -/
def runSchedule (events : List IncEvent) (s : IncState) : IncState :=
  events.foldl incStep s

/-! ## Theorems -/

/-- Helper: a finite entry of the registry is one of the three finite
quotas 10, 50, 200. -/
theorem planLimit_finite_cases (plan : String) (limit : Nat)
    (h : planLimit plan = some limit) :
    limit = 10 ∨ limit = 50 ∨ limit = 200 := by
  unfold planLimit PLAN_LIMITS at h
  split_ifs at h <;> simp_all

/-- **C2.** For every account on a finite-quota plan whose effective
current-period usage is at least the quota, the gate denies and returns the
stored row unchanged: no increment happens on the denial path. -/
theorem gate_denies_and_preserves_state (now : Date) (u : User) (limit : Nat)
    (hl : planLimit u.plan = some limit)
    (hc : currentUsage now u ≥ limit) :
    (checkAndIncrementUsage now u).result = .denied ∧
      (checkAndIncrementUsage now u).user = u := by
  unfold checkAndIncrementUsage
  rw [hl]
  simp [hc]

/-- Witness for C2: a free-plan account with 10 uses this month is denied
with its row untouched. -/
theorem gate_denies_and_preserves_state_witness :
    (checkAndIncrementUsage ⟨5, 2025, 0⟩
        ⟨"free", 10, ⟨5, 2025, 0⟩, none⟩).result = .denied ∧
      (checkAndIncrementUsage ⟨5, 2025, 0⟩
        ⟨"free", 10, ⟨5, 2025, 0⟩, none⟩).user =
        ⟨"free", 10, ⟨5, 2025, 0⟩, none⟩ :=
  gate_denies_and_preserves_state ⟨5, 2025, 0⟩
    ⟨"free", 10, ⟨5, 2025, 0⟩, none⟩ 10 (by decide) (by decide)

/-- A fixed instant (May 2025) used for concrete scenarios. -/
def d0 : Date := ⟨5, 2025, 0⟩

/-- An instant in the previous calendar month (April 2025). -/
def dPrev : Date := ⟨4, 2025, 0⟩

/-- **C1 counterexample.** A free-plan account whose anchor is in the
previous month with stored count 5: its effective usage 0 is below the
quota 10 and the gate allows, but the stored count becomes 1, not 5 + 1 —
the gate does not always increment the stored count by exactly 1. -/
theorem gate_allow_not_plus_one_counterexample :
    planLimit "free" = some 10 ∧
      currentUsage d0 ⟨"free", 5, dPrev, none⟩ < 10 ∧
      (checkAndIncrementUsage d0 ⟨"free", 5, dPrev, none⟩).result = .allowed ∧
      (checkAndIncrementUsage d0 ⟨"free", 5, dPrev, none⟩).user.usesThisMonth ≠
        (⟨"free", 5, dPrev, none⟩ : User).usesThisMonth + 1 := by
  decide

/-- **C1 (amended).** For every account on a finite-quota plan whose
effective current-period usage is strictly below the quota, the gate allows
and the stored count becomes the effective count plus 1: an increment by
exactly 1 when the stored period is current, a reset to 1 when it is
stale. -/
theorem gate_allows_and_increments_effective (now : Date) (u : User)
    (limit : Nat) (hl : planLimit u.plan = some limit)
    (hc : currentUsage now u < limit) :
    (checkAndIncrementUsage now u).result = .allowed ∧
      (checkAndIncrementUsage now u).user.usesThisMonth =
        currentUsage now u + 1 := by
  unfold checkAndIncrementUsage
  rw [hl]
  simp only [Nat.not_le.mpr hc, ge_iff_le, if_neg (Nat.not_le.mpr hc)]
  refine ⟨rfl, ?_⟩
  unfold incrementUsageCount currentUsage
  by_cases h : sameMonth now u.lastResetDate <;> simp [h]

/-- Witness for C1 (amended): a current-period free account at 3 uses is
allowed and moves to 4 uses. -/
theorem gate_allows_and_increments_effective_witness :
    (checkAndIncrementUsage d0 ⟨"free", 3, d0, none⟩).result = .allowed ∧
      (checkAndIncrementUsage d0 ⟨"free", 3, d0, none⟩).user.usesThisMonth =
        currentUsage d0 ⟨"free", 3, d0, none⟩ + 1 :=
  gate_allows_and_increments_effective d0 ⟨"free", 3, d0, none⟩ 10
    (by decide) (by decide)

/-- **C4.** When the stored anchor lies in a different calendar month or
year and the stored count is positive, the next increment writes count 1
(not K + 1) and the current instant as the new anchor, both in the single
row update the source issues on this branch. -/
theorem increment_rollover_resets (now : Date) (u : User)
    (hstale : sameMonth now u.lastResetDate = false)
    (hk : 0 < u.usesThisMonth) :
    incrementUsageCount now u =
      { u with usesThisMonth := 1, lastResetDate := now } ∧
      (incrementUsageCount now u).usesThisMonth ≠ u.usesThisMonth + 1 := by
  have h : incrementUsageCount now u =
      { u with usesThisMonth := 1, lastResetDate := now } := by
    unfold incrementUsageCount
    simp [hstale]
  rw [h]
  refine ⟨rfl, ?_⟩
  simp only [ne_eq]
  omega

/-- Witness for C4: an account with 7 April uses incremented in May ends at
count 1 with a May anchor. -/
theorem increment_rollover_resets_witness :
    incrementUsageCount d0 ⟨"free", 7, dPrev, none⟩ =
      { (⟨"free", 7, dPrev, none⟩ : User) with
          usesThisMonth := 1, lastResetDate := d0 } ∧
      (incrementUsageCount d0 ⟨"free", 7, dPrev, none⟩).usesThisMonth ≠
        (⟨"free", 7, dPrev, none⟩ : User).usesThisMonth + 1 :=
  increment_rollover_resets d0 ⟨"free", 7, dPrev, none⟩ (by decide) (by decide)

/-- **C5.** For every account whose plan maps to the unlimited sentinel,
the gate allows no matter how large the count is, and still performs the
usage-meter increment: the stored count becomes the effective count plus
1. -/
theorem gate_unlimited_always_allows (now : Date) (u : User)
    (hl : planLimit u.plan = none) :
    (checkAndIncrementUsage now u).result = .allowed ∧
      (checkAndIncrementUsage now u).user = incrementUsageCount now u ∧
      (checkAndIncrementUsage now u).user.usesThisMonth =
        currentUsage now u + 1 := by
  unfold checkAndIncrementUsage
  rw [hl]
  refine ⟨rfl, rfl, ?_⟩
  unfold incrementUsageCount currentUsage
  by_cases h : sameMonth now u.lastResetDate <;> simp [h]

/-- Witness for C5: an unlimited account at one million uses is still
allowed and incremented. -/
theorem gate_unlimited_always_allows_witness :
    (checkAndIncrementUsage d0 ⟨"unlimited", 1000000, d0, none⟩).result =
        .allowed ∧
      (checkAndIncrementUsage d0 ⟨"unlimited", 1000000, d0, none⟩).user =
        incrementUsageCount d0 ⟨"unlimited", 1000000, d0, none⟩ ∧
      (checkAndIncrementUsage d0 ⟨"unlimited", 1000000, d0, none⟩).user.usesThisMonth =
        currentUsage d0 ⟨"unlimited", 1000000, d0, none⟩ + 1 :=
  gate_unlimited_always_allows d0 ⟨"unlimited", 1000000, d0, none⟩ (by decide)

/-- Helper: on a plan with a finite registry entry the gate reduces to the
deny/allow conditional of routes.ts. -/
theorem checkAndIncrementUsage_finite (now : Date) (u : User) (limit : Nat)
    (hl : planLimit u.plan = some limit) :
    checkAndIncrementUsage now u =
      if currentUsage now u ≥ limit then
        ⟨.denied, u, currentUsage now u == limit, false⟩
      else
        ⟨.allowed, incrementUsageCount now u, false,
          (limit != 0) &&
            ((incrementUsageCount now u).usesThisMonth == floor80 limit)⟩ := by
  unfold checkAndIncrementUsage
  rw [hl]

/-- **C3.** The registry has no entry for the tier "gold", yet the gate's
`?? null` lookup turns the absent entry into the unlimited sentinel: an
account on the unknown tier is allowed even at one million uses (and its
count incremented), instead of being denied fail-safe. -/
theorem unknown_tier_granted_unlimited :
    PLAN_LIMITS "gold" = none ∧
      planLimit "gold" = none ∧
      (checkAndIncrementUsage d0 ⟨"gold", 1000000, d0, none⟩).result =
        .allowed ∧
      (checkAndIncrementUsage d0 ⟨"gold", 1000000, d0, none⟩).user.usesThisMonth =
        1000001 := by
  decide

/-- The free-plan account used by the concrete gate scenarios, fresh at the
start of the current period. -/
def freeStart : User := ⟨"free", 0, d0, none⟩

/-- **C6.** On a finite-quota plan, an allowed call emits the 80% warning
exactly when the post-increment count equals `floor(quota * 0.8)`; that
threshold is 8, 40, 160 for quotas 10, 50, 200; and from a fresh free
account (quota 10) eleven consecutive calls give ten Allowed then the first
Denied on the eleventh, with the warning fired only on the eighth call. -/
theorem warning80_fires_iff_threshold (now : Date) (u : User) (limit : Nat)
    (hl : planLimit u.plan = some limit)
    (ha : (checkAndIncrementUsage now u).result = .allowed) :
    ((checkAndIncrementUsage now u).email80 = true ↔
        (checkAndIncrementUsage now u).user.usesThisMonth = floor80 limit) ∧
      floor80 10 = 8 ∧ floor80 50 = 40 ∧ floor80 200 = 160 ∧
      (iterateGate d0 11 freeStart).2.map GateOutcome.result =
        (List.replicate 10 .allowed ++ [.denied]) ∧
      (iterateGate d0 11 freeStart).2.map GateOutcome.email80 =
        [false, false, false, false, false, false, false, true,
         false, false, false] := by
  have hne : limit ≠ 0 := by
    rcases planLimit_finite_cases u.plan limit hl with h | h | h <;> omega
  refine ⟨?_, by decide, by decide, by decide, by decide, by decide⟩
  rw [checkAndIncrementUsage_finite now u limit hl] at ha ⊢
  by_cases hc : currentUsage now u ≥ limit
  · rw [if_pos hc] at ha
    simp at ha
  · rw [if_neg hc]
    simp [Bool.and_eq_true, bne_iff_ne, beq_iff_eq, hne]

/-- Witness for C6: a free account at 7 uses in the current period is
allowed onto count 8 = floor(10 * 0.8) and the warning email is sent. -/
theorem warning80_fires_witness :
    (checkAndIncrementUsage d0 ⟨"free", 7, d0, none⟩).email80 = true :=
  (warning80_fires_iff_threshold d0 ⟨"free", 7, d0, none⟩ 10
      (by decide) (by decide)).1.mpr (by decide)

/-- **C7 (code bug).** A free account sitting exactly at its quota of 10 in
the current period: two consecutive gate calls are both denied and BOTH
send the 100% `usageLimitReached` email — the denial path never changes the
row, so `currentCount === limit` holds again and the notification repeats
on every denial instead of at most once per period. -/
theorem email100_repeats_on_every_denial :
    (iterateGate d0 2 ⟨"free", 10, d0, none⟩).2.map
        (fun o => (o.result, o.email100)) =
      [(.denied, true), (.denied, true)] := by
  decide

/-- **C8.** A plan change writes only the plan (and, when a non-empty
Stripe subscription id is given, that id): the usage count and the reset
anchor are untouched. Consequently an account downgraded from professional
at 40 uses to free (quota 10) is denied on its very next gate call with the
count still 40. -/
theorem updateUserPlan_frame (plan : String)
    (stripeSubscriptionId : Option String) (u : User) :
    (updateUserPlan plan stripeSubscriptionId u).usesThisMonth =
        u.usesThisMonth ∧
      (updateUserPlan plan stripeSubscriptionId u).lastResetDate =
        u.lastResetDate ∧
      (updateUserPlan plan stripeSubscriptionId u).plan = plan ∧
      (checkAndIncrementUsage d0
          (updateUserPlan "free" none ⟨"professional", 40, d0, none⟩)).result =
        .denied ∧
      (checkAndIncrementUsage d0
          (updateUserPlan "free" none ⟨"professional", 40, d0, none⟩)).user.usesThisMonth =
        40 := by
  refine ⟨?_, ?_, ?_, by decide, by decide⟩ <;>
    · unfold updateUserPlan
      cases stripeSubscriptionId with
      | none => rfl
      | some s => by_cases h : s = "" <;> simp [h]

/-- **C9 (code bug).** A free account with 10 stored uses whose anchor is
in the previous calendar month: the effective usage under the gate's
staleness rule is 0, yet /api/auth/me serves the raw stored count 10 and
the client pages conclude `limitReached = true` — the display read path
applies no staleness rule and shows the stale cross-month count. -/
theorem display_read_path_ignores_staleness :
    sameMonth d0 (⟨"free", 10, dPrev, none⟩ : User).lastResetDate = false ∧
      currentUsage d0 ⟨"free", 10, dPrev, none⟩ = 0 ∧
      authMeUsage ⟨"free", 10, dPrev, none⟩ = 10 ∧
      limitReached ⟨"free", 10, dPrev, none⟩ = true ∧
      (checkAndIncrementUsage d0 ⟨"free", 10, dPrev, none⟩).result =
        .allowed := by
  decide

/-- **C10 (code bug).** The increment is a SELECT followed by an UPDATE
computed in application code, with no database-level atomic increment: in
the interleaving where both concurrent calls perform their SELECT before
either UPDATE runs, both read the same count `n`, both write `n + 1`, and
the final stored count is `n + 1` instead of `n + 2` — the classic lost
update the claim says is impossible. -/
theorem increment_read_then_write_lost_update (n : Nat) :
    (runSchedule [.readA, .readB, .writeA, .writeB] ⟨n, none, none⟩).regA =
        some n ∧
      (runSchedule [.readA, .readB, .writeA, .writeB] ⟨n, none, none⟩).regB =
        some n ∧
      (runSchedule [.readA, .readB, .writeA, .writeB] ⟨n, none, none⟩).store =
        n + 1 ∧
      (runSchedule [.readA, .writeA, .readB, .writeB] ⟨n, none, none⟩).store =
        n + 2 := by
  refine ⟨rfl, rfl, rfl, rfl⟩
